import Mathlib

/-!
Verification of the method-dispatch pipeline of `simply-express-controllers`.

The development shallowly embeds the dispatch core of the repository:

* `src/method-result.ts` — the `ResultBuilder` class and the `result` factory;
* `src/route-factory/method-handler.ts` — `MethodHandler._executeRequest`,
  `_validateRequest`, `_validateResponse`, `_collectMethodArgs` and the
  parameter-validator builders `createQueryParamValidator` /
  `createPathParamValidator`;
* `src/ajv-utils.ts` — `NoOpAjvValidator` (the always-true validator used
  when no schema is declared).

JavaScript runtime values are modelled by the inductive `JsValue`.  JSON
schemas compiled by ajv are abstracted by their observable behaviour: a
compiled request/response validator is a boolean test on a `JsValue`
together with the error message that `getValidatorError` would extract on
failure, and a compiled per-parameter schema is a coercion function
(`none` = invalid) plus an optional `default` value that ajv's
`useDefaults` option inserts for an absent property.  Promises collapse:
`await` of an already-settled model value is the value itself, matching
`maybeAwaitPromise` on non-promises and the fact that the claims under
study are about settled results only.

Express response writes (`res.setHeader`, `res.cookie`, `res.status`,
`res.json`, `res.send`, `res.end`) are recorded as an ordered list of
`ResponseEffect`s produced on the success path; every `throw` in the
source happens before the first response write, so an error outcome
carries no effects, exactly as in the source.
-/

/-- A JavaScript runtime value, as far as the dispatch pipeline observes it.
`undef` is JavaScript `undefined`, `null` is JavaScript `null`, and `obj`
is any structured (object or array) value; `typeof` distinctions are all
the pipeline ever applies to a body. -/
inductive JsValue where
  | undef : JsValue
  | null : JsValue
  | bool (b : Bool) : JsValue
  | num (n : Int) : JsValue
  | str (s : String) : JsValue
  | obj (fields : List (String × JsValue)) : JsValue

/-- `v === undefined` in the source. -/
def JsValue.isUndef : JsValue → Bool
  | .undef => true
  | _ => false

/-- Loose equality with `null` (`v == null`), true for both `null` and
`undefined` — the test used by `_validateRequest` on `req.body`. -/
def JsValue.isNullish : JsValue → Bool
  | .undef => true
  | .null => true
  | _ => false

/-- `typeof v === "object"` in JavaScript: true for structured values and
also for `null` (a well-known JavaScript quirk the pipeline inherits). -/
def JsValue.typeofIsObject : JsValue → Bool
  | .null => true
  | .obj _ => true
  | _ => false

/-- A structured (non-primitive) value in the sense of the specification:
an object or array, but not `null`.  This is the specification's wording,
kept separate from `JsValue.typeofIsObject` so the two can be compared. -/
def JsValue.isStructured : JsValue → Bool
  | .obj _ => true
  | _ => false

/-- Lookup in a JavaScript plain-object record modelled as an association
list in insertion order (`record[key]`, `undefined` when absent). -/
def recordGet {α : Type} : List (String × α) → String → Option α
  | [], _ => none
  | (k, v) :: rest, key => if k = key then some v else recordGet rest key

/-- Assignment `record[key] = value` on a plain-object record: an existing
key keeps its position, a new key is appended (JavaScript string-key
insertion order). -/
def recordSet {α : Type} : List (String × α) → String → α → List (String × α)
  | [], key, value => [(key, value)]
  | (k, v) :: rest, key, value =>
      if k = key then (k, value) :: rest else (k, v) :: recordSet rest key value

/-- Lookup in a record indexed by numbers (the `responses` map indexed by
status code). -/
def recordGetNat {α : Type} : List (Nat × α) → Nat → Option α
  | [], _ => none
  | (k, v) :: rest, key => if k = key then some v else recordGetNat rest key

/-- Cookie attributes accepted by `res.cookie` (from `CookieSettings` in
`method-result.ts`; optional fields model the absent-attribute case). -/
structure CookieSettings where
  domain : Option String := none
  httpOnly : Option Bool := none
  maxAge : Option Int := none
  path : Option String := none
  secure : Option Bool := none
  signed : Option Bool := none
deriving DecidableEq

/-- One entry of `ResultBuilder.cookies`: the cookie value together with its
attributes (`ResultBuilderCookie extends CookieSettings { value }`); the
pipeline destructures it as `const { value, ...cookieSettings }`. -/
structure ResultBuilderCookie where
  value : String
  settings : CookieSettings := {}
deriving DecidableEq

/-- The `ResultOptions` bag accepted by the result factory (`{ raw?: boolean }`). -/
structure ResultOptions where
  raw : Option Bool := none

/-- The `ResultBuilder` class of `method-result.ts`: the mutable fields a
builder instance carries.  All fields are public and mutable in the
source, so an arbitrary field combination is a representable state. -/
structure ResultBuilder where
  handled : Bool
  contentType : Option String
  body : JsValue
  raw : Bool
  statusCode : Nat
  headers : List (String × String)
  cookies : List (String × ResultBuilderCookie)

/-- The `ResultBuilder` constructor:
`contentType`/`body` are stored, `raw` is `opts.raw ?? false`, the other
fields take their initializers, and `handled = (body === undefined)`. -/
def mkResultBuilder (body : JsValue) (contentType : Option String)
    (opts : ResultOptions) : ResultBuilder :=
  { handled := body.isUndef
    contentType := contentType
    body := body
    raw := opts.raw.getD false
    statusCode := 200
    headers := []
    cookies := [] }

/-- `ResultBuilder.status`. -/
def ResultBuilder.status (b : ResultBuilder) (code : Nat) : ResultBuilder :=
  { b with statusCode := code }

/-- `ResultBuilder.header`. -/
def ResultBuilder.header (b : ResultBuilder) (name value : String) : ResultBuilder :=
  { b with headers := recordSet b.headers name value }

/-- `ResultBuilder.cookie`. -/
def ResultBuilder.cookie (b : ResultBuilder) (name value : String)
    (settings : CookieSettings := {}) : ResultBuilder :=
  { b with cookies := recordSet b.cookies name { value := value, settings := settings } }

/-- The one-argument call `result(body)` of the factory in
`method-result.ts`: `new ResultBuilder(args[0], "application/json", {})`. -/
def resultFactory1 (body : JsValue) : ResultBuilder :=
  mkResultBuilder body (some "application/json") {}

/-- The two-argument call `result(contentType, body)`:
`new ResultBuilder(args[1], args[0], {})`. -/
def resultFactory2 (contentType : String) (body : JsValue) : ResultBuilder :=
  mkResultBuilder body (some contentType) {}

/-- JavaScript truthiness of a value, the only way the pipeline observes
the `raw` slot (`if (sendRaw)`). -/
def JsValue.truthy : JsValue → Bool
  | .undef => false
  | .null => false
  | .bool b => b
  | .num n => n != 0
  | .str s => s != ""
  | .obj _ => true

/-- Member access `o[key]` on a JavaScript value that is neither `null`
nor `undefined`: the member of an object (or `undefined` when missing),
and `undefined` on any other primitive (which boxes and has no own
`raw` member). -/
def jsMember : JsValue → String → JsValue
  | JsValue.obj fields, key => (recordGet fields key).getD JsValue.undef
  | _, _ => JsValue.undef

/-- View of a JavaScript value stored in the `contentType : string |
undefined` slot of a builder: the string itself, `none` for `undefined`.
A non-string, non-undefined value — the misassigned options object of the
three-argument factory call — is also viewed as `none`; that view is
never inexact at a read, because the pipeline reads `contentType` only
from builders whose handled flag is false, and the only construction
placing a non-string there produces a handled builder. -/
def JsValue.asContentType : JsValue → Option String
  | .str s => some s
  | _ => none

/-- The options record as the JavaScript object it is at runtime. -/
def ResultOptions.toJs (o : ResultOptions) : JsValue :=
  JsValue.obj (match o.raw with
    | some b => [("raw", JsValue.bool b)]
    | none => [])

/-- The `ResultBuilder` constructor as reached from untyped JavaScript,
with arbitrary runtime values in the content-type and options slots.  The
constructor unconditionally evaluates `opts.raw ?? false`: when the
options slot holds `null` or `undefined` this throws a TypeError and no
builder is constructed; otherwise the member access yields a value whose
nullish cases coalesce to `false`, so the stored raw flag is observed
exactly as the member's truthiness.  The stored fields are otherwise as
in `mkResultBuilder`, with the content-type slot kept through its
`JsValue.asContentType` view. -/
def mkResultBuilderDyn (body contentTypeSlot opts : JsValue) :
    Except String ResultBuilder :=
  match opts with
  | JsValue.undef => Except.error "TypeError: Cannot read properties of undefined"
  | JsValue.null => Except.error "TypeError: Cannot read properties of null"
  | o =>
      Except.ok
        { handled := body.isUndef
          contentType := contentTypeSlot.asContentType
          body := body
          raw := (jsMember o "raw").truthy
          statusCode := 200
          headers := []
          cookies := [] }

/-- The three-argument call `result(contentType, opts, body)`.  The source
constructs `new ResultBuilder(args[3], args[1], args[2])`, but a
three-argument call populates only `args[0..2]`: `args[3]` is
`undefined`, so the builder's body slot receives `undefined` (the
supplied body is never stored, and `args[0]` — the content-type string —
is never read at all); the options object `args[1]` lands in the
content-type slot and the caller's body `args[2]` in the options slot,
where the constructor evaluates `opts.raw ?? false` on it — throwing a
TypeError when that body is `null` or `undefined`, and otherwise storing
the truthiness of its `raw` member in the raw slot. -/
def resultFactory3 (_contentType : String) (opts : ResultOptions)
    (body : JsValue) : Except String ResultBuilder :=
  mkResultBuilderDyn JsValue.undef opts.toJs body

/-- `result.handled()`: `new ResultBuilder(undefined, undefined, {})`. -/
def resultHandled : ResultBuilder :=
  mkResultBuilder JsValue.undef none {}

/-- `result.json(body)`: `new ResultBuilder(args[0], "application/json", {})`. -/
def resultJson1 (body : JsValue) : ResultBuilder :=
  mkResultBuilder body (some "application/json") {}

/-- `result.json(opts, body)`: `new ResultBuilder(args[1], "application/json", args[0])`. -/
def resultJson2 (opts : ResultOptions) (body : JsValue) : ResultBuilder :=
  mkResultBuilder body (some "application/json") opts

/-- `result.text(body)`: `new ResultBuilder(body, "text/plain", {})`. -/
def resultText (body : String) : ResultBuilder :=
  mkResultBuilder (JsValue.str body) (some "text/plain") {}

/-- `result.html(body)`: `new ResultBuilder(body, "text/html", {})`. -/
def resultHtml (body : String) : ResultBuilder :=
  mkResultBuilder (JsValue.str body) (some "text/html") {}

/-- A value a handler can return: a plain value (`plain JsValue.undef`
standing for `undefined`), or a `ResultBuilder` instance
(`result instanceof ResultBuilder`). -/
inductive MethodResult where
  | plain (v : JsValue) : MethodResult
  | builder (b : ResultBuilder) : MethodResult

/-- `result === undefined` on a method result. -/
def MethodResult.isUndef : MethodResult → Bool
  | .plain v => v.isUndef
  | .builder _ => false

/-- Whether the result is a builder product already marked handled. -/
def MethodResult.isHandled : MethodResult → Bool
  | .plain _ => false
  | .builder b => b.handled

/-- The status code the pipeline resolves for a result (builder status, or
the default 200 for a plain value). -/
def MethodResult.statusOf : MethodResult → Nat
  | .plain _ => 200
  | .builder b => b.statusCode

/-- The body the pipeline resolves for a result. -/
def MethodResult.bodyOf : MethodResult → JsValue
  | .plain v => v
  | .builder b => b.body

/-- The classified failures the pipeline can raise.  `badRequest`,
`unprocessableEntity` and `notFound` are the `http-errors` constructors
`BadRequest` (400), `UnprocessableEntity` (422) and `NotFound` (404);
`serverError` is a plain `new Error(message)`, which express converts into
an HTTP 500 response. -/
inductive PipelineError where
  | badRequest (message : String) : PipelineError
  | unprocessableEntity (message : String) : PipelineError
  | notFound : PipelineError
  | serverError (message : String) : PipelineError
deriving DecidableEq

/-- One write performed on the express response object, in order. -/
inductive ResponseEffect where
  | setHeader (name value : String) : ResponseEffect
  | setCookie (name value : String) (settings : CookieSettings) : ResponseEffect
  | status (code : Nat) : ResponseEffect
  | sendJson (body : JsValue) : ResponseEffect
  | sendRaw (body : JsValue) : ResponseEffect
  | endResponse : ResponseEffect

/-- The incoming express request, as read by the pipeline: the parsed body
(`req.body`), the matched path parameters (`req.params`) and the query
values (`req.query`); a missing key reads as `undefined`. -/
structure Request where
  body : JsValue := JsValue.undef
  params : List (String × JsValue) := []
  query : List (String × JsValue) := []

/-- A compiled ajv validator for a request or response schema, abstracted
by its observable behaviour: the boolean test, and the message
`getValidatorError` extracts from `validator.errors` after a failure. -/
structure AjvValidator where
  ok : JsValue → Bool
  errMsg : String := ""

/-- `NoOpAjvValidator` from `ajv-utils.ts`: always returns true. -/
def NoOpAjvValidator : AjvValidator :=
  { ok := fun _ => true }

/-- A compiled per-parameter JSON schema, abstracted by its observable
behaviour under `coerceTypes`/`useDefaults`: `check v` is `some` of the
(possibly coerced) value when `v` conforms and `none` otherwise;
`defaultValue` is the value ajv's `useDefaults` inserts when the wrapped
property is absent; `invalidMessage` is the message `getValidatorError`
extracts after a failed validation. -/
structure SchemaCheck where
  check : JsValue → Option JsValue
  defaultValue : Option JsValue := none
  invalidMessage : String := ""

/-- The empty schema `{}` used when a parameter declares no schema
(`metadata.schema || {}` / spreading an undefined schema): it accepts
every value unchanged and carries no default. -/
def trivialSchemaCheck : SchemaCheck :=
  { check := fun v => some v }

/-- Behaviour of the compiled wrapper schema
`{type: "object", properties: {value: S}, required: R}` applied to
`{value: v}` under `coerceTypes`/`useDefaults`: an absent (`undefined`)
value receives the schema default when one exists; otherwise it fails
exactly when `"value"` is required; a present value is checked (and
possibly coerced) by the compiled property schema.  The result is the
final `data.value` on success and `none` on failure. -/
def wrappedValidate (required : Bool) (sc : SchemaCheck) (v : JsValue) : Option JsValue :=
  if v.isUndef then
    match sc.defaultValue with
    | some d => some d
    | none => if required then none else some JsValue.undef
  else sc.check v

/-- `request` metadata on an endpoint (`{required?, schema?}`); an absent
`required` reads as false (JavaScript truthiness). -/
structure RequestMetadata where
  required : Bool := false
  schema : Option AjvValidator := none

/-- One entry of the `responses` metadata (`{description?, schema?}`). -/
structure ResponseMetadata where
  schema : Option AjvValidator := none

/-- `ParamMetadata` for one path or query parameter. -/
structure ParamMetadata where
  required : Bool := false
  schema : Option SchemaCheck := none

/-- One handler-argument descriptor (`ControllerMethodArgMetadata`), in the
order of the source's `switch`.  The custom-value factory receives the
raw request and its options; a promise result is awaited by the
collector, which in this model of settled values is the identity. -/
inductive ArgMetadata where
  | body : ArgMetadata
  | pathParam (paramName : String) : ArgMetadata
  | queryParam (paramName : String) : ArgMetadata
  | customValueFactory (valueFactory : Request → JsValue → JsValue)
      (options : JsValue) : ArgMetadata
  | request : ArgMetadata
  | response : ArgMetadata

/-- A collected positional argument: a plain value, or the raw request or
response object handed through unchanged. -/
inductive ArgValue where
  | value (v : JsValue) : ArgValue
  | requestObject : ArgValue
  | responseObject : ArgValue

/-- `ControllerMethodMetadata` as consumed by `MethodHandler`: all maps are
records in insertion order, and `handlerArgs` is `none` when the metadata
carries no argument list (`if (!handlerArgs) return []`). -/
structure MethodMetadata where
  request : Option RequestMetadata := none
  responses : List (Nat × ResponseMetadata) := []
  pathParams : List (String × ParamMetadata) := []
  queryParams : List (String × ParamMetadata) := []
  handlerArgs : Option (List ArgMetadata) := none

/-- `_methodMetadata.request && _methodMetadata.request.required`. -/
def requestRequiredOf (m : MethodMetadata) : Bool :=
  match m.request with
  | some r => r.required
  | none => false

/-- `get(_methodMetadata, ["request", "schema"])`. -/
def requestSchemaOf (m : MethodMetadata) : Option AjvValidator :=
  match m.request with
  | some r => r.schema
  | none => none

/-- The `_requestValidator` compiled in the constructor: the declared
schema when present, `NoOpAjvValidator` otherwise. -/
def requestValidatorOf (m : MethodMetadata) : AjvValidator :=
  match requestSchemaOf m with
  | some v => v
  | none => NoOpAjvValidator

/-- The `_responseValidators` record compiled in the constructor:
`mapValues(responses, r => r.schema ? ajv.compile(r.schema) : NoOpAjvValidator)`. -/
def responseValidatorsOf (m : MethodMetadata) : List (Nat × AjvValidator) :=
  m.responses.map fun kv => (kv.1, match kv.2.schema with
    | some v => v
    | none => NoOpAjvValidator)

/-- `createQueryParamValidator(metadata, key)`: the returned closure first
enforces requiredness on an absent value with a 400, then runs the
compiled wrapper schema; a failure there is a 422 carrying the message
`getValidatorError` extracts; on success the (possibly coerced)
`data.value` is returned. -/
def createQueryParamValidator (metadata : ParamMetadata) (key : String)
    (value : JsValue) : Except PipelineError JsValue :=
  if metadata.required && value.isUndef then
    Except.error (PipelineError.badRequest ("Query parameter " ++ key ++ " is required."))
  else
    match wrappedValidate metadata.required (metadata.schema.getD trivialSchemaCheck) value with
    | some coerced => Except.ok coerced
    | none =>
        Except.error (PipelineError.unprocessableEntity
          (metadata.schema.getD trivialSchemaCheck).invalidMessage)

/-- `createPathParamValidator(metadata)`: the returned closure runs the
compiled wrapper schema over `{value}` and raises a bare `NotFound` (no
validation message) on failure; on success the (possibly coerced)
`data.value` is returned. -/
def createPathParamValidator (metadata : ParamMetadata)
    (value : JsValue) : Except PipelineError JsValue :=
  match wrappedValidate metadata.required (metadata.schema.getD trivialSchemaCheck) value with
  | some coerced => Except.ok coerced
  | none => Except.error PipelineError.notFound

/-- The `_queryValidators` record compiled in the constructor
(`mapValues(queryParams, createQueryParamValidator)`; lodash `mapValues`
passes `(value, key)`). -/
def queryValidatorsOf (m : MethodMetadata) :
    List (String × (JsValue → Except PipelineError JsValue)) :=
  m.queryParams.map fun kv => (kv.1, createQueryParamValidator kv.2 kv.1)

/-- The `_pathValidators` record compiled in the constructor
(`mapValues(pathParams, createPathParamValidator)`). -/
def pathValidatorsOf (m : MethodMetadata) :
    List (String × (JsValue → Except PipelineError JsValue)) :=
  m.pathParams.map fun kv => (kv.1, createPathParamValidator kv.2)

/-- `MethodHandler._validateRequest`. -/
def validateRequest (m : MethodMetadata) (req : Request) : Except PipelineError Unit := do
  if requestRequiredOf m && req.body.isNullish then
    throw (PipelineError.badRequest "A body is required.")
  if !(requestValidatorOf m).ok req.body then
    throw (PipelineError.badRequest (requestValidatorOf m).errMsg)

/-- `MethodHandler._validateResponse`: look up the validator compiled for
the status code; absent — return silently; present — a failing body
raises a plain `Error` (surfacing as HTTP 500) with the extracted
message. -/
def validateResponse (m : MethodMetadata) (statusCode : Nat)
    (result : JsValue) : Except PipelineError Unit :=
  match recordGetNat (responseValidatorsOf m) statusCode with
  | none => Except.ok ()
  | some validator =>
      if validator.ok result then Except.ok ()
      else Except.error (PipelineError.serverError validator.errMsg)

/-- `MethodHandler._collectPathParam`: read `req.params[paramName]`, run it
through the compiled validator when one exists for the name, pass it
through unchanged otherwise. -/
def collectPathParam (m : MethodMetadata) (req : Request)
    (paramName : String) : Except PipelineError JsValue :=
  let value := (recordGet req.params paramName).getD JsValue.undef
  match recordGet (pathValidatorsOf m) paramName with
  | some validator => validator value
  | none => Except.ok value

/-- `MethodHandler._collectQueryParam`: read `req.query[paramName]`, run it
through the compiled validator when one exists for the name, pass it
through unchanged otherwise. -/
def collectQueryParam (m : MethodMetadata) (req : Request)
    (paramName : String) : Except PipelineError JsValue :=
  let value := (recordGet req.query paramName).getD JsValue.undef
  match recordGet (queryValidatorsOf m) paramName with
  | some validator => validator value
  | none => Except.ok value

/-- `MethodHandler._collectArg`: the `switch` over the descriptor type. -/
def collectArg (m : MethodMetadata) (req : Request) :
    ArgMetadata → Except PipelineError ArgValue
  | .body => Except.ok (ArgValue.value req.body)
  | .pathParam name => (collectPathParam m req name).map ArgValue.value
  | .queryParam name => (collectQueryParam m req name).map ArgValue.value
  | .customValueFactory factory options =>
      Except.ok (ArgValue.value (factory req options))
  | .request => Except.ok ArgValue.requestObject
  | .response => Except.ok ArgValue.responseObject

/-- Resolution of a descriptor list in declaration order
(`Promise.all(handlerArgs.map(...))`): each element resolves
independently; the model surfaces the leftmost failure, which coincides
with `Promise.all`'s rejection whenever at most one element fails (all
parameter validators are synchronous in the source). -/
def collectArgList (m : MethodMetadata) (req : Request) :
    List ArgMetadata → Except PipelineError (List ArgValue)
  | [] => Except.ok []
  | a :: rest => do
      let v ← collectArg m req a
      let vs ← collectArgList m req rest
      pure (v :: vs)

/-- `MethodHandler._collectMethodArgs`: no declared `handlerArgs` yields
the empty argument list. -/
def collectMethodArgs (m : MethodMetadata) (req : Request) :
    Except PipelineError (List ArgValue) :=
  match m.handlerArgs with
  | none => Except.ok []
  | some l => collectArgList m req l

/-- `headers["Content-Type"] ?? headers["content-type"]` — the explicit
content-type header lookup of `_executeRequest`. -/
def headerContentTypeOf (headers : List (String × String)) : Option String :=
  (recordGet headers "Content-Type").orElse fun _ => recordGet headers "content-type"

/-- The tail of `MethodHandler._executeRequest` (source lines 138–184),
operating on the destructured result fields.  `hasBody` is the value of
`const hasBody = result !== undefined`, computed by the caller from the
whole method result.  When `hasBody` holds, the response is validated and
an unset content type defaults to the explicit content-type header or
`"application/json"`; the `Content-Type` header is then written when the
resolved content type is non-null and no content-type header was
explicitly set; headers, cookies and the status code are applied in
order; finally the body is sent — raw when the raw flag is set, through
`res.json` when the content type is `"application/json"` or
`typeof body === "object"`, through `res.send` otherwise — or, without a
body, the response is ended bare. -/
def transmitFields (m : MethodMetadata) (statusCode : Nat)
    (headers0 : List (String × String))
    (cookies : List (String × ResultBuilderCookie))
    (contentType0 : Option String) (sendRaw : Bool) (body : JsValue)
    (hasBody : Bool) : Except PipelineError (List ResponseEffect) := do
  let headerContentType := headerContentTypeOf headers0
  let contentType ←
    if hasBody then do
      validateResponse m statusCode body
      pure (match contentType0 with
        | none => some (headerContentType.getD "application/json")
        | some ct => some ct)
    else pure contentType0
  let headers :=
    match contentType, headerContentType with
    | some ct, none => recordSet headers0 "Content-Type" ct
    | _, _ => headers0
  let headerEffects := headers.map fun kv => ResponseEffect.setHeader kv.1 kv.2
  let cookieEffects := cookies.map fun kv =>
    ResponseEffect.setCookie kv.1 kv.2.value kv.2.settings
  let sendEffects :=
    if hasBody then
      if sendRaw then [ResponseEffect.sendRaw body]
      else if contentType == some "application/json" || body.typeofIsObject then
        [ResponseEffect.sendJson body]
      else [ResponseEffect.sendRaw body]
    else [ResponseEffect.endResponse]
  pure (headerEffects ++ cookieEffects ++ [ResponseEffect.status statusCode] ++ sendEffects)

/-- Result interpretation of `_executeRequest` (source lines 117–184): a
builder product already marked handled transmits nothing; otherwise the
result is split into status/headers/cookies/content-type/raw/body (a
plain value keeps the defaults and becomes the body) and handed to the
transmission tail together with `hasBody = result !== undefined` —
computed, as in the source, from the whole result, not from the
destructured body. -/
def transmitResult (m : MethodMetadata) (result : MethodResult) :
    Except PipelineError (List ResponseEffect) :=
  match result with
  | .builder b =>
      if b.handled then Except.ok []
      else
        transmitFields m b.statusCode b.headers b.cookies b.contentType b.raw b.body
          (!(MethodResult.builder b).isUndef)
  | .plain v =>
      transmitFields m 200 [] [] none false v (!(MethodResult.plain v).isUndef)

/-- `MethodHandler._executeRequest`: validate the request, collect the
arguments, invoke the handler (the `handler` function stands for
`_method.apply(_controller, args)` with `maybeAwaitPromise` already
settled), reject an `undefined` result as a contract violation, and
interpret/transmit the result. -/
def executeRequest (m : MethodMetadata)
    (handler : List ArgValue → MethodResult) (req : Request) :
    Except PipelineError (List ResponseEffect) := do
  validateRequest m req
  let args ← collectMethodArgs m req
  let result := handler args
  if result.isUndef then
    throw (PipelineError.serverError "Controller methods must return a result.")
  transmitResult m result

/-- Content-type resolution in the words of the specification: the
builder's explicit content type if set, otherwise an explicitly set
content-type header value, otherwise `"application/json"`. -/
def specResolvedContentType (builderContentType : Option String)
    (headers : List (String × String)) : String :=
  match builderContentType with
  | some ct => ct
  | none =>
      match headerContentTypeOf headers with
      | some h => h
      | none => "application/json"

theorem except_bind_ok {ε α β : Type} (a : α) (f : α → Except ε β) :
    (Except.ok a >>= f) = f a := rfl

theorem except_bind_error {ε α β : Type} (e : ε) (f : α → Except ε β) :
    ((Except.error e : Except ε α) >>= f) = Except.error e := rfl

theorem except_pure_eq {ε α : Type} (a : α) : (pure a : Except ε α) = Except.ok a := rfl

theorem except_throw_eq {ε α : Type} (e : ε) : (throw e : Except ε α) = Except.error e := rfl

theorem recordGetNat_map {α β : Type} (f : α → β) (l : List (Nat × α)) (c : Nat) :
    recordGetNat (l.map fun kv => (kv.1, f kv.2)) c = (recordGetNat l c).map f := by
  induction l with
  | nil => rfl
  | cons kv rest ih =>
      by_cases h : kv.1 = c <;> simp [recordGetNat, h, ih]

theorem recordGet_map {α β : Type} (f : α → β) (l : List (String × α)) (k : String) :
    recordGet (l.map fun kv => (kv.1, f kv.2)) k = (recordGet l k).map f := by
  induction l with
  | nil => rfl
  | cons kv rest ih =>
      by_cases h : kv.1 = k <;> simp [recordGet, h, ih]
theorem executeRequest_eq_of_valid (m : MethodMetadata)
    (handler : List ArgValue → MethodResult) (req : Request) (args : List ArgValue)
    (hv : validateRequest m req = Except.ok ())
    (hc : collectMethodArgs m req = Except.ok args) :
    executeRequest m handler req =
      (if (handler args).isUndef then
        Except.error (PipelineError.serverError "Controller methods must return a result.")
      else transmitResult m (handler args)) := by
  unfold executeRequest
  rw [hv]
  simp only [except_bind_ok, hc]
  cases hu : (handler args).isUndef <;>
    simp [hu, except_throw_eq, except_bind_ok, except_bind_error]

theorem transmitResult_handled (m : MethodMetadata) (b : ResultBuilder)
    (hh : b.handled = true) :
    transmitResult m (MethodResult.builder b) = Except.ok [] := by
  simp [transmitResult, hh]

theorem transmitFields_ok (m : MethodMetadata) (s : Nat) (hdrs : List (String × String))
    (cks : List (String × ResultBuilderCookie)) (ct0 : Option String) (raw : Bool)
    (body : JsValue)
    (hval : validateResponse m s body = Except.ok ()) :
    transmitFields m s hdrs cks ct0 raw body true =
      Except.ok
        ((if (headerContentTypeOf hdrs).isNone then
            recordSet hdrs "Content-Type" (specResolvedContentType ct0 hdrs)
          else hdrs).map (fun kv => ResponseEffect.setHeader kv.1 kv.2)
         ++ cks.map (fun kv => ResponseEffect.setCookie kv.1 kv.2.value kv.2.settings)
         ++ [ResponseEffect.status s]
         ++ [if raw then ResponseEffect.sendRaw body
             else if specResolvedContentType ct0 hdrs == "application/json" || body.typeofIsObject then
               ResponseEffect.sendJson body
             else ResponseEffect.sendRaw body]) := by
  unfold transmitFields
  rw [hval]
  cases hct : ct0 <;> cases hh : headerContentTypeOf hdrs <;>
    simp [specResolvedContentType, hh, except_bind_ok, except_pure_eq] <;>
    cases raw <;> simp <;> split <;> rfl

theorem transmitFields_error (m : MethodMetadata) (s : Nat) (hdrs : List (String × String))
    (cks : List (String × ResultBuilderCookie)) (ct0 : Option String) (raw : Bool)
    (body : JsValue) (e : PipelineError)
    (hval : validateResponse m s body = Except.error e) :
    transmitFields m s hdrs cks ct0 raw body true = Except.error e := by
  unfold transmitFields
  rw [hval]
  simp [except_bind_error]

theorem recordGetNat_responseValidators (l : List (Nat × ResponseMetadata)) (s : Nat) :
    recordGetNat (l.map fun kv => (kv.1, match kv.2.schema with
      | some v => v
      | none => NoOpAjvValidator)) s =
    (recordGetNat l s).map (fun rm => match rm.schema with
      | some v => v
      | none => NoOpAjvValidator) := by
  induction l with
  | nil => rfl
  | cons kv rest ih =>
      by_cases h : kv.1 = s <;> simp [recordGetNat, h, ih]

theorem recordGet_queryValidators (l : List (String × ParamMetadata)) (k : String) :
    recordGet (l.map fun kv => (kv.1, createQueryParamValidator kv.2 kv.1)) k =
    (recordGet l k).map (fun pm => createQueryParamValidator pm k) := by
  induction l with
  | nil => rfl
  | cons kv rest ih =>
      by_cases h : kv.1 = k <;> simp [recordGet, h, ih]

theorem validateResponse_no_entry (m : MethodMetadata) (s : Nat) (body : JsValue)
    (h : recordGetNat m.responses s = none) :
    validateResponse m s body = Except.ok () := by
  unfold validateResponse responseValidatorsOf
  rw [recordGetNat_responseValidators, h]
  simp

theorem validateResponse_no_schema (m : MethodMetadata) (s : Nat) (body : JsValue)
    (rm : ResponseMetadata) (h : recordGetNat m.responses s = some rm)
    (hs : rm.schema = none) :
    validateResponse m s body = Except.ok () := by
  unfold validateResponse responseValidatorsOf
  rw [recordGetNat_responseValidators, h]
  simp [hs, NoOpAjvValidator]

theorem validateResponse_with_schema (m : MethodMetadata) (s : Nat) (body : JsValue)
    (rm : ResponseMetadata) (val : AjvValidator)
    (h : recordGetNat m.responses s = some rm) (hs : rm.schema = some val) :
    validateResponse m s body =
      (if val.ok body then Except.ok ()
       else Except.error (PipelineError.serverError val.errMsg)) := by
  unfold validateResponse responseValidatorsOf
  rw [recordGetNat_responseValidators, h]
  simp [hs]

theorem collectArgList_of_forall2 (m : MethodMetadata) (req : Request)
    (l : List ArgMetadata) (vs : List ArgValue)
    (h : List.Forall₂ (fun a v => collectArg m req a = Except.ok v) l vs) :
    collectArgList m req l = Except.ok vs := by
  induction h with
  | nil => rfl
  | cons h₁ _ ih => simp [collectArgList, h₁, ih, except_bind_ok, except_pure_eq]

theorem collectQueryParam_with_meta (m : MethodMetadata) (req : Request)
    (name : String) (pm : ParamMetadata)
    (h : recordGet m.queryParams name = some pm) :
    collectQueryParam m req name =
      createQueryParamValidator pm name ((recordGet req.query name).getD JsValue.undef) := by
  unfold collectQueryParam queryValidatorsOf
  rw [recordGet_queryValidators, h]
  simp

theorem collectQueryParam_no_meta (m : MethodMetadata) (req : Request)
    (name : String) (h : recordGet m.queryParams name = none) :
    collectQueryParam m req name =
      Except.ok ((recordGet req.query name).getD JsValue.undef) := by
  unfold collectQueryParam queryValidatorsOf
  rw [recordGet_queryValidators, h]
  simp

theorem collectPathParam_with_meta (m : MethodMetadata) (req : Request)
    (name : String) (pm : ParamMetadata)
    (h : recordGet m.pathParams name = some pm) :
    collectPathParam m req name =
      createPathParamValidator pm ((recordGet req.params name).getD JsValue.undef) := by
  unfold collectPathParam pathValidatorsOf
  rw [recordGet_map, h]
  simp

theorem collectPathParam_no_meta (m : MethodMetadata) (req : Request)
    (name : String) (h : recordGet m.pathParams name = none) :
    collectPathParam m req name =
      Except.ok ((recordGet req.params name).getD JsValue.undef) := by
  unfold collectPathParam pathValidatorsOf
  rw [recordGet_map, h]
  simp

theorem recordGetNat_mem {α : Type} (l : List (Nat × α)) (s : Nat) (v : α)
    (h : recordGetNat l s = some v) : (s, v) ∈ l := by
  induction l with
  | nil => simp [recordGetNat] at h
  | cons kv rest ih =>
      by_cases hk : kv.1 = s
      · subst hk
        simp [recordGetNat] at h
        subst h
        exact List.mem_cons_self _ _
      · simp [recordGetNat, hk] at h
        exact List.mem_cons_of_mem _ (ih h)

theorem validateResponse_error_shape (m : MethodMetadata) (s : Nat) (body : JsValue)
    (e : PipelineError) (h : validateResponse m s body = Except.error e) :
    ∃ rm val, recordGetNat m.responses s = some rm ∧ rm.schema = some val ∧
      val.ok body = false ∧ e = PipelineError.serverError val.errMsg := by
  cases hr : recordGetNat m.responses s with
  | none => rw [validateResponse_no_entry m s body hr] at h; exact absurd h (by simp)
  | some rm =>
      cases hs : rm.schema with
      | none => rw [validateResponse_no_schema m s body rm hr hs] at h; exact absurd h (by simp)
      | some val =>
          rw [validateResponse_with_schema m s body rm val hr hs] at h
          by_cases hok : val.ok body
          · simp [hok] at h
          · refine ⟨rm, val, rfl, hs, by simpa using hok, ?_⟩
            simp [hok] at h
            exact h.symm

theorem transmitFields_noBody (m : MethodMetadata) (s : Nat) (hdrs : List (String × String))
    (cks : List (String × ResultBuilderCookie)) (ct0 : Option String) (raw : Bool)
    (body : JsValue) :
    transmitFields m s hdrs cks ct0 raw body false =
      Except.ok
        (((match ct0, headerContentTypeOf hdrs with
          | some ct, none => recordSet hdrs "Content-Type" ct
          | _, _ => hdrs : List (String × String))).map
            (fun kv => ResponseEffect.setHeader kv.1 kv.2)
         ++ cks.map (fun kv => ResponseEffect.setCookie kv.1 kv.2.value kv.2.settings)
         ++ [ResponseEffect.status s]
         ++ [ResponseEffect.endResponse]) := by
  unfold transmitFields
  simp [except_bind_ok, except_pure_eq]

theorem transmitResult_error_validateResponse (m : MethodMetadata) (r : MethodResult)
    (e : PipelineError) (h : transmitResult m r = Except.error e) :
    validateResponse m r.statusOf r.bodyOf = Except.error e := by
  cases r with
  | plain v =>
      unfold transmitResult at h
      cases hu : v.isUndef with
      | true =>
          simp only [MethodResult.isUndef, hu, Bool.not_true] at h
          rw [transmitFields_noBody] at h
          exact absurd h (by simp)
      | false =>
          simp only [MethodResult.isUndef, hu, Bool.not_false] at h
          cases hval : validateResponse m 200 v with
          | ok u =>
              cases u
              rw [transmitFields_ok m 200 [] [] none false v hval] at h
              exact absurd h (by simp)
          | error e' =>
              rw [transmitFields_error m 200 [] [] none false v e' hval] at h
              cases h
              exact hval
  | builder b =>
      unfold transmitResult at h
      cases hh : b.handled with
      | true => simp [hh] at h
      | false =>
          simp only [hh, Bool.false_eq_true, if_false, MethodResult.isUndef,
            Bool.not_false] at h
          cases hval : validateResponse m b.statusCode b.body with
          | ok u =>
              cases u
              rw [transmitFields_ok m b.statusCode b.headers b.cookies b.contentType b.raw b.body hval] at h
              exact absurd h (by simp)
          | error e' =>
              rw [transmitFields_error m b.statusCode b.headers b.cookies b.contentType b.raw b.body e' hval] at h
              cases h
              exact hval

theorem collectArg_congr (m₁ m₂ : MethodMetadata) (req : Request) (a : ArgMetadata)
    (hp : m₁.pathParams = m₂.pathParams) (hq : m₁.queryParams = m₂.queryParams) :
    collectArg m₁ req a = collectArg m₂ req a := by
  cases a <;>
    simp [collectArg, collectPathParam, collectQueryParam, pathValidatorsOf,
      queryValidatorsOf, hp, hq]

theorem collectArgList_congr (m₁ m₂ : MethodMetadata) (req : Request)
    (l : List ArgMetadata)
    (hp : m₁.pathParams = m₂.pathParams) (hq : m₁.queryParams = m₂.queryParams) :
    collectArgList m₁ req l = collectArgList m₂ req l := by
  induction l with
  | nil => rfl
  | cons a rest ih =>
      simp [collectArgList, collectArg_congr m₁ m₂ req a hp hq, ih]

theorem collectMethodArgs_responses_invariant (m : MethodMetadata)
    (rs : List (Nat × ResponseMetadata)) (req : Request) :
    collectMethodArgs { m with responses := rs } req = collectMethodArgs m req := by
  unfold collectMethodArgs
  cases m.handlerArgs with
  | none => rfl
  | some l => exact collectArgList_congr _ m req l rfl rfl

/-- Claim C3: once the request has validated and the arguments have been
collected, the pipeline fails with the server error
"Controller methods must return a result." (surfacing as HTTP 500) if and
only if the settled handler result is `undefined`, independent of the
declared responses (the second conjunct: the failure is unchanged under
any replacement of the `responses` metadata), and the failure happens
before any response validation or transmission — an error outcome of the
model carries no response writes, matching the source, where the throw
precedes every `res` call.  The hypothesis `hmsg` excludes the degenerate
configuration of a declared response validator whose extracted message
textually equals the contract-violation message, the only other place the
same `Error` text could arise. -/
theorem contract_error_iff_result_undefined (m : MethodMetadata)
    (handler : List ArgValue → MethodResult) (req : Request) (args : List ArgValue)
    (hv : validateRequest m req = Except.ok ())
    (hc : collectMethodArgs m req = Except.ok args)
    (hmsg : ∀ p ∈ m.responses, ∀ val : AjvValidator, p.2.schema = some val →
      val.errMsg ≠ "Controller methods must return a result.") :
    (executeRequest m handler req =
        Except.error (PipelineError.serverError "Controller methods must return a result.")
      ↔ (handler args).isUndef = true)
    ∧ ((handler args).isUndef = true →
        ∀ rs, executeRequest { m with responses := rs } handler req =
          Except.error (PipelineError.serverError "Controller methods must return a result.")) := by
  have hbase := executeRequest_eq_of_valid m handler req args hv hc
  constructor
  · constructor
    · intro herr
      by_contra hu
      rw [hbase] at herr
      rw [if_neg hu] at herr
      have hvr := transmitResult_error_validateResponse m (handler args) _ herr
      obtain ⟨rm, val, hrm, hschema, _, hmsgeq⟩ :=
        validateResponse_error_shape m _ _ _ hvr
      have hmem := recordGetNat_mem m.responses _ rm hrm
      have := hmsg _ hmem val hschema
      exact this (by injection hmsgeq.symm)
    · intro hu
      rw [hbase]
      simp [hu]
  · intro hu rs
    have hv' : validateRequest { m with responses := rs } req = Except.ok () := hv
    have hc' : collectMethodArgs { m with responses := rs } req = Except.ok args := by
      rw [collectMethodArgs_responses_invariant]
      exact hc
    rw [executeRequest_eq_of_valid _ handler req args hv' hc']
    simp [hu]

/-- Witness for C3: an endpoint with no metadata and a handler returning
`undefined` — the pipeline fails with exactly the contract error. -/
theorem contract_error_iff_result_undefined_witness :
    validateRequest {} {} = Except.ok () ∧
    collectMethodArgs {} {} = Except.ok [] ∧
    (executeRequest {} (fun _ => MethodResult.plain JsValue.undef) {} =
        Except.error (PipelineError.serverError "Controller methods must return a result.")
      ↔ (MethodResult.plain JsValue.undef).isUndef = true) :=
  ⟨rfl, rfl,
    (contract_error_iff_result_undefined {} (fun _ => MethodResult.plain JsValue.undef)
      {} [] rfl rfl (by simp)).1⟩

/-- Claim C4: a builder product already marked handled makes the pipeline
transmit nothing further — the success outcome carries no header, cookie,
status or body write at all, and since the conclusion holds for every
`responses` declaration, no response-schema validation influences it. -/
theorem handled_builder_writes_nothing (m : MethodMetadata)
    (handler : List ArgValue → MethodResult) (req : Request)
    (args : List ArgValue) (b : ResultBuilder)
    (hv : validateRequest m req = Except.ok ())
    (hc : collectMethodArgs m req = Except.ok args)
    (hr : handler args = MethodResult.builder b)
    (hh : b.handled = true) :
    executeRequest m handler req = Except.ok [] := by
  rw [executeRequest_eq_of_valid m handler req args hv hc, hr]
  simp [MethodResult.isUndef, transmitResult_handled m b hh]

/-- Witness for C4: `result.handled()` returned by a handler on a bare
endpoint — the pipeline performs no response write. -/
theorem handled_builder_writes_nothing_witness :
    validateRequest {} {} = Except.ok () ∧
    collectMethodArgs {} {} = Except.ok [] ∧
    resultHandled.handled = true ∧
    executeRequest {} (fun _ => MethodResult.builder resultHandled) {} = Except.ok [] :=
  ⟨rfl, rfl, rfl,
    handled_builder_writes_nothing {} (fun _ => MethodResult.builder resultHandled)
      {} [] resultHandled rfl rfl rfl rfl⟩

/-- Counterexample to C10 as stated: the three-argument call
`result("text/plain", {}, null)` returns no `ResultBuilder` at all — the
constructor receives the caller's body in its options slot and evaluating
`opts.raw` on `null` throws a TypeError — so the asserted returned
builder with an undefined body does not exist for this call. -/
theorem result_factory_three_arg_null_body_counterexample :
    resultFactory3 "text/plain" {} JsValue.null =
      Except.error "TypeError: Cannot read properties of null" ∧
    resultFactory3 "text/plain" {} JsValue.undef =
      Except.error "TypeError: Cannot read properties of undefined" :=
  ⟨rfl, rfl⟩

/-- Claim C10 (amended): a three-argument call
`result(contentType, opts, body)` whose body argument is `null` or
`undefined` throws a TypeError from the constructor (the caller's body
sits in the options slot, whose `raw` member is read unconditionally) and
returns no builder; for every other body argument the call returns a
builder whose body field is `undefined` (the supplied body is never
stored) and whose handled flag is therefore true, so the supplied body is
discarded and the pipeline transmits nothing for such a result; in every
constructed builder — through the typed constructor or any returning run
of the dynamic one — `handled` is set exactly when the body slot is
`undefined` at construction. -/
theorem result_factory_three_arg_discards_body (ct : String) (opts : ResultOptions)
    (body : JsValue) (m : MethodMetadata)
    (handler : List ArgValue → MethodResult) (req : Request) (args : List ArgValue)
    (hv : validateRequest m req = Except.ok ())
    (hc : collectMethodArgs m req = Except.ok args) :
    (body.isNullish = true →
      ∀ b : ResultBuilder, resultFactory3 ct opts body ≠ Except.ok b)
    ∧ (body.isNullish = false →
        ∃ b : ResultBuilder, resultFactory3 ct opts body = Except.ok b)
    ∧ (∀ b : ResultBuilder, resultFactory3 ct opts body = Except.ok b →
        b.body = JsValue.undef ∧ b.handled = true ∧
        (handler args = MethodResult.builder b →
          executeRequest m handler req = Except.ok []))
    ∧ (∀ (b2 : JsValue) (c : Option String) (o : ResultOptions),
        (mkResultBuilder b2 c o).handled = b2.isUndef)
    ∧ (∀ (b2 ct2 o2 : JsValue) (r2 : ResultBuilder),
        mkResultBuilderDyn b2 ct2 o2 = Except.ok r2 → r2.handled = b2.isUndef) := by
  refine ⟨?_, ?_, ?_, fun b2 c o => rfl, ?_⟩
  · intro hn b
    cases body <;> simp [JsValue.isNullish] at hn <;>
      simp [resultFactory3, mkResultBuilderDyn]
  · intro hn
    cases body <;> simp [JsValue.isNullish] at hn <;>
      exact ⟨_, rfl⟩
  · intro b hb
    have hbody : b.body = JsValue.undef ∧ b.handled = true := by
      cases body <;> simp [resultFactory3, mkResultBuilderDyn] at hb <;>
        (rw [← hb]; exact ⟨rfl, rfl⟩)
    refine ⟨hbody.1, hbody.2, ?_⟩
    intro hr
    rw [executeRequest_eq_of_valid m handler req args hv hc, hr]
    simp [MethodResult.isUndef, transmitResult_handled m b hbody.2]
  · intro b2 ct2 o2 r2 h
    cases o2 <;> simp [mkResultBuilderDyn] at h <;> rw [← h]

/-- Witness for the amended C10: `result("text/plain", {}, "hi")` returns
a builder with an undefined body and the handled flag set, and the
pipeline writes nothing for it. -/
theorem result_factory_three_arg_discards_body_witness :
    (JsValue.str "hi").isNullish = false ∧
    resultFactory3 "text/plain" {} (JsValue.str "hi") =
      Except.ok (mkResultBuilder JsValue.undef none {}) ∧
    (mkResultBuilder JsValue.undef none {}).body = JsValue.undef ∧
    (mkResultBuilder JsValue.undef none {}).handled = true ∧
    executeRequest {}
      (fun _ => MethodResult.builder (mkResultBuilder JsValue.undef none {})) {} =
      Except.ok [] :=
  ⟨rfl, rfl,
    ((result_factory_three_arg_discards_body "text/plain" {} (JsValue.str "hi") {}
      (fun _ => MethodResult.builder (mkResultBuilder JsValue.undef none {}))
      {} [] rfl rfl).2.2.1 (mkResultBuilder JsValue.undef none {}) rfl).1,
    ((result_factory_three_arg_discards_body "text/plain" {} (JsValue.str "hi") {}
      (fun _ => MethodResult.builder (mkResultBuilder JsValue.undef none {}))
      {} [] rfl rfl).2.2.1 (mkResultBuilder JsValue.undef none {}) rfl).2.1,
    ((result_factory_three_arg_discards_body "text/plain" {} (JsValue.str "hi") {}
      (fun _ => MethodResult.builder (mkResultBuilder JsValue.undef none {}))
      {} [] rfl rfl).2.2.1 (mkResultBuilder JsValue.undef none {}) rfl).2.2 rfl⟩

/-- Claim C7: request validation first rejects a required body that is
null or absent with HTTP 400 and the exact message "A body is required.";
past that check, a declared request schema whose compiled validator
rejects the parsed body fails dispatch with HTTP 400 carrying the
validator's extracted message; and with no declared schema the body
always passes validation (the compiled validator is the no-op one). -/
theorem request_validation_order_and_messages (m : MethodMetadata)
    (handler : List ArgValue → MethodResult) (req : Request) :
    (requestRequiredOf m = true → req.body.isNullish = true →
      executeRequest m handler req =
        Except.error (PipelineError.badRequest "A body is required."))
    ∧ (¬(requestRequiredOf m = true ∧ req.body.isNullish = true) →
        (requestValidatorOf m).ok req.body = false →
        executeRequest m handler req =
          Except.error (PipelineError.badRequest (requestValidatorOf m).errMsg))
    ∧ (requestSchemaOf m = none →
        ¬(requestRequiredOf m = true ∧ req.body.isNullish = true) →
        validateRequest m req = Except.ok ()) := by
  refine ⟨?_, ?_, ?_⟩
  · intro hreq hnull
    have hv : validateRequest m req =
        Except.error (PipelineError.badRequest "A body is required.") := by
      unfold validateRequest
      simp [hreq, hnull, except_throw_eq, except_bind_error]
    unfold executeRequest
    rw [hv]
    rfl
  · intro hnot hfail
    have hv : validateRequest m req =
        Except.error (PipelineError.badRequest (requestValidatorOf m).errMsg) := by
      unfold validateRequest
      have hcond : (requestRequiredOf m && req.body.isNullish) = false := by
        cases hr : requestRequiredOf m <;> cases hn : req.body.isNullish <;>
          simp_all
      simp [hcond, hfail, except_throw_eq, except_bind_error, except_bind_ok]
    unfold executeRequest
    rw [hv]
    rfl
  · intro hschema hnot
    have hok : (requestValidatorOf m).ok req.body = true := by
      unfold requestValidatorOf
      rw [hschema]
      rfl
    unfold validateRequest
    have hcond : (requestRequiredOf m && req.body.isNullish) = false := by
      cases hr : requestRequiredOf m <;> cases hn : req.body.isNullish <;>
        simp_all
    simp [hcond, hok, except_pure_eq]
    rfl

/-- Witness for C7: an endpoint declaring a required body, with a null
parsed body — dispatch fails with 400 "A body is required.". -/
theorem request_validation_order_and_messages_witness :
    requestRequiredOf { request := some { required := true } } = true ∧
    JsValue.null.isNullish = true ∧
    executeRequest { request := some { required := true } }
      (fun _ => MethodResult.plain (JsValue.str "x")) { body := JsValue.null } =
      Except.error (PipelineError.badRequest "A body is required.") :=
  ⟨rfl, rfl,
    (request_validation_order_and_messages { request := some { required := true } }
      (fun _ => MethodResult.plain (JsValue.str "x")) { body := JsValue.null }).1 rfl rfl⟩

theorem executeRequest_collect_error (m : MethodMetadata)
    (handler : List ArgValue → MethodResult) (req : Request) (e : PipelineError)
    (hv : validateRequest m req = Except.ok ())
    (hc : collectMethodArgs m req = Except.error e) :
    executeRequest m handler req = Except.error e := by
  unfold executeRequest
  rw [hv]
  simp [except_bind_ok, hc, except_bind_error]

/-- Claim C5: a query parameter declared required whose raw value is
absent fails with HTTP 400 and the exact message
"Query parameter <name> is required." — never with the 422
unprocessable-entity error — for every declared schema (the compiled
schema is not consulted: the equation holds for all `pm` with the
required flag set); a present raw value that fails the compiled schema
fails with the 422 error; and at dispatch level the absent required
parameter fails the whole request with the 400 error for every handler,
during argument collection. -/
theorem required_query_param_absent_yields_bad_request (pm : ParamMetadata)
    (key : String) (hreq : pm.required = true) :
    createQueryParamValidator pm key JsValue.undef =
      Except.error (PipelineError.badRequest ("Query parameter " ++ key ++ " is required."))
    ∧ (∀ v : JsValue, v.isUndef = false →
        wrappedValidate pm.required (pm.schema.getD trivialSchemaCheck) v = none →
        createQueryParamValidator pm key v =
          Except.error (PipelineError.unprocessableEntity
            (pm.schema.getD trivialSchemaCheck).invalidMessage))
    ∧ (∀ (m : MethodMetadata) (req : Request) (handler : List ArgValue → MethodResult),
        validateRequest m req = Except.ok () →
        recordGet m.queryParams key = some pm →
        m.handlerArgs = some [ArgMetadata.queryParam key] →
        recordGet req.query key = none →
        executeRequest m handler req =
          Except.error
            (PipelineError.badRequest ("Query parameter " ++ key ++ " is required."))) := by
  have habsent : createQueryParamValidator pm key JsValue.undef =
      Except.error (PipelineError.badRequest ("Query parameter " ++ key ++ " is required.")) := by
    unfold createQueryParamValidator
    simp [hreq, JsValue.isUndef]
  refine ⟨habsent, ?_, ?_⟩
  · intro v hu hw
    unfold createQueryParamValidator
    simp [hu, hw]
  · intro m req handler hv hmeta hargs habs
    have hcq : collectQueryParam m req key =
        Except.error (PipelineError.badRequest ("Query parameter " ++ key ++ " is required.")) := by
      rw [collectQueryParam_with_meta m req key pm hmeta, habs]
      exact habsent
    have hc : collectMethodArgs m req =
        Except.error (PipelineError.badRequest ("Query parameter " ++ key ++ " is required.")) := by
      unfold collectMethodArgs
      rw [hargs]
      simp [collectArgList, collectArg, hcq, Except.map, except_bind_error]
    exact executeRequest_collect_error m handler req _ hv hc

/-- Decimal-digit accumulator used by the concrete integer-schema model. -/
def decDigitsAux : List Char → Nat → Option Nat
  | [], acc => some acc
  | c :: rest, acc =>
      if c.isDigit then decDigitsAux rest (acc * 10 + (c.toNat - 48)) else none

/-- Parse a non-empty all-digit string as a natural number. -/
def strToNat? (s : String) : Option Nat :=
  match s.data with
  | [] => none
  | l => decDigitsAux l 0

/-- A concrete model of the compiled ajv schema `{type: "integer"}` under
`coerceTypes`: a number is accepted unchanged, a decimal string is
coerced to its number, everything else is rejected; the schema declares
no default. -/
def intSchemaCheck : SchemaCheck :=
  { check := fun v => match v with
      | JsValue.num n => some (JsValue.num n)
      | JsValue.str s => (strToNat? s).map (fun n => JsValue.num (Int.ofNat n))
      | _ => none
    invalidMessage := "value should be integer" }

/-- The `limit` query parameter of the witness endpoint: required, with an
integer schema. -/
def limitParam : ParamMetadata := { required := true, schema := some intSchemaCheck }

/-- Witness endpoint metadata: one required query parameter bound as the
only handler argument. -/
def mQuery : MethodMetadata :=
  { queryParams := [("limit", limitParam)]
    handlerArgs := some [ArgMetadata.queryParam "limit"] }

/-- Witness for C5: `?limit` absent on an endpoint requiring it — dispatch
fails with 400 "Query parameter limit is required." for an arbitrary
handler. -/
theorem required_query_param_absent_yields_bad_request_witness :
    limitParam.required = true ∧
    validateRequest mQuery {} = Except.ok () ∧
    executeRequest mQuery (fun _ => MethodResult.plain (JsValue.str "x")) {} =
      Except.error (PipelineError.badRequest "Query parameter limit is required.") :=
  ⟨rfl, rfl,
    (required_query_param_absent_yields_bad_request limitParam "limit" rfl).2.2
      mQuery {} (fun _ => MethodResult.plain (JsValue.str "x")) rfl rfl rfl rfl⟩

/-- The `id` path parameter as the `pathParam` decorator produces it: a
declared schema and no required mark. -/
def idParam : ParamMetadata := { schema := some intSchemaCheck }

/-- Path-parameter endpoint metadata for C6: one declared path parameter
bound as the only handler argument. -/
def mPath : MethodMetadata :=
  { pathParams := [("id", idParam)]
    handlerArgs := some [ArgMetadata.pathParam "id"] }

/-- Counterexample to C6 as stated: a path parameter with a declared
(integer) schema whose raw value is absent from the matched route does
not fail with NotFound — the compiled wrapper schema has an empty
`required` list because the parameter metadata carries no required mark
(the `pathParam` decorator never sets one), so the absent value passes
validation, the handler receives `undefined`, and dispatch succeeds. -/
theorem path_param_absent_passes_counterexample :
    idParam.schema = some intSchemaCheck ∧
    recordGet ({} : Request).params "id" = none ∧
    createPathParamValidator idParam JsValue.undef = Except.ok JsValue.undef ∧
    executeRequest mPath (fun _ => MethodResult.plain (JsValue.str "ok")) {} =
      Except.ok [ResponseEffect.setHeader "Content-Type" "application/json",
        ResponseEffect.status 200, ResponseEffect.sendJson (JsValue.str "ok")] :=
  ⟨rfl, rfl, rfl, rfl⟩

/-- Claim C6 (amended): for a path parameter with a declared schema, a
present raw value that fails validation makes dispatch fail with the bare
NotFound error (HTTP 404, no validation message — never 400 or 422)
during argument collection, before the handler is invoked (the conclusion
holds for every handler); an absent raw value fails the same way only
when the parameter metadata marks it required (and the schema carries no
default) — otherwise the absent value passes through as `undefined`, or
as the schema's default when one is declared. -/
theorem path_param_schema_failure_yields_not_found (pm : ParamMetadata)
    (sc : SchemaCheck) (hs : pm.schema = some sc) :
    (∀ v : JsValue, v.isUndef = false → sc.check v = none →
      createPathParamValidator pm v = Except.error PipelineError.notFound)
    ∧ (pm.required = true → sc.defaultValue = none →
        createPathParamValidator pm JsValue.undef = Except.error PipelineError.notFound)
    ∧ (pm.required = false → sc.defaultValue = none →
        createPathParamValidator pm JsValue.undef = Except.ok JsValue.undef)
    ∧ (∀ d, sc.defaultValue = some d →
        createPathParamValidator pm JsValue.undef = Except.ok d)
    ∧ (∀ (m : MethodMetadata) (req : Request) (name : String) (v : JsValue),
        validateRequest m req = Except.ok () →
        recordGet m.pathParams name = some pm →
        m.handlerArgs = some [ArgMetadata.pathParam name] →
        recordGet req.params name = some v → v.isUndef = false → sc.check v = none →
        ∀ handler : List ArgValue → MethodResult,
          executeRequest m handler req = Except.error PipelineError.notFound) := by
  have hfail : ∀ v : JsValue, v.isUndef = false → sc.check v = none →
      createPathParamValidator pm v = Except.error PipelineError.notFound := by
    intro v hu hcheck
    unfold createPathParamValidator wrappedValidate
    simp [hs, hu, hcheck]
  refine ⟨hfail, ?_, ?_, ?_, ?_⟩
  · intro hreq hdef
    unfold createPathParamValidator wrappedValidate
    simp [hs, hreq, hdef, JsValue.isUndef]
  · intro hreq hdef
    unfold createPathParamValidator wrappedValidate
    simp [hs, hreq, hdef, JsValue.isUndef]
  · intro d hdef
    unfold createPathParamValidator wrappedValidate
    simp [hs, hdef, JsValue.isUndef]
  · intro m req name v hv hmeta hargs hval hu hcheck handler
    have hcp : collectPathParam m req name = Except.error PipelineError.notFound := by
      rw [collectPathParam_with_meta m req name pm hmeta, hval]
      exact hfail v hu hcheck
    have hc : collectMethodArgs m req = Except.error PipelineError.notFound := by
      unfold collectMethodArgs
      rw [hargs]
      simp [collectArgList, collectArg, hcp, Except.map, except_bind_error]
    exact executeRequest_collect_error m handler req _ hv hc

/-- Witness for the amended C6: path segment `id = "abc"` against an
integer schema — dispatch fails with the bare NotFound before the handler
runs. -/
theorem path_param_schema_failure_yields_not_found_witness :
    (JsValue.str "abc").isUndef = false ∧
    intSchemaCheck.check (JsValue.str "abc") = none ∧
    executeRequest mPath (fun _ => MethodResult.plain (JsValue.str "ok"))
      { params := [("id", JsValue.str "abc")] } =
      Except.error PipelineError.notFound :=
  ⟨rfl, rfl,
    (path_param_schema_failure_yields_not_found idParam intSchemaCheck rfl).2.2.2.2
      mPath { params := [("id", JsValue.str "abc")] } "id" (JsValue.str "abc")
      rfl rfl rfl rfl rfl rfl (fun _ => MethodResult.plain (JsValue.str "ok"))⟩

/-- Claim C9: argument collection resolves each `handlerArgs` descriptor
independently and in declaration order — when every descriptor resolves,
the collected list pairs up with the descriptor list element by element
(`List.Forall₂`), so it has exactly one element per entry in the same
order; a body descriptor yields the parsed body, request/response
descriptors the raw request/response objects, a custom-value-factory
descriptor the factory applied to the request and its options (a promise
being awaited, which on settled model values is the identity), and
path/query descriptors the named raw value passed through the compiled
validator for that name, or unchanged when no metadata entry (hence no
validator) exists; an endpoint with no `handlerArgs` collects the empty
list, and the pipeline then observes the handler only at the empty
argument list, i.e. it is invoked with no arguments. -/
theorem collected_args_match_descriptors (m : MethodMetadata) (req : Request) :
    (m.handlerArgs = none → collectMethodArgs m req = Except.ok [])
    ∧ (∀ (l : List ArgMetadata) (vs : List ArgValue), m.handlerArgs = some l →
        List.Forall₂ (fun a v => collectArg m req a = Except.ok v) l vs →
        collectMethodArgs m req = Except.ok vs)
    ∧ collectArg m req ArgMetadata.body = Except.ok (ArgValue.value req.body)
    ∧ collectArg m req ArgMetadata.request = Except.ok ArgValue.requestObject
    ∧ collectArg m req ArgMetadata.response = Except.ok ArgValue.responseObject
    ∧ (∀ (factory : Request → JsValue → JsValue) (options : JsValue),
        collectArg m req (ArgMetadata.customValueFactory factory options) =
          Except.ok (ArgValue.value (factory req options)))
    ∧ (∀ name : String, recordGet m.pathParams name = none →
        collectArg m req (ArgMetadata.pathParam name) =
          Except.ok (ArgValue.value ((recordGet req.params name).getD JsValue.undef)))
    ∧ (∀ (name : String) (pm : ParamMetadata), recordGet m.pathParams name = some pm →
        collectArg m req (ArgMetadata.pathParam name) =
          (createPathParamValidator pm
            ((recordGet req.params name).getD JsValue.undef)).map ArgValue.value)
    ∧ (∀ name : String, recordGet m.queryParams name = none →
        collectArg m req (ArgMetadata.queryParam name) =
          Except.ok (ArgValue.value ((recordGet req.query name).getD JsValue.undef)))
    ∧ (∀ (name : String) (pm : ParamMetadata), recordGet m.queryParams name = some pm →
        collectArg m req (ArgMetadata.queryParam name) =
          (createQueryParamValidator pm name
            ((recordGet req.query name).getD JsValue.undef)).map ArgValue.value)
    ∧ (∀ (h₁ h₂ : List ArgValue → MethodResult), m.handlerArgs = none →
        h₁ [] = h₂ [] → executeRequest m h₁ req = executeRequest m h₂ req) := by
  have hnone : m.handlerArgs = none → collectMethodArgs m req = Except.ok [] := by
    intro h
    unfold collectMethodArgs
    rw [h]
  refine ⟨hnone, ?_, rfl, rfl, rfl, fun factory options => rfl, ?_, ?_, ?_, ?_, ?_⟩
  · intro l vs hl hfa
    unfold collectMethodArgs
    rw [hl]
    exact collectArgList_of_forall2 m req l vs hfa
  · intro name h
    simp [collectArg, collectPathParam_no_meta m req name h, Except.map]
  · intro name pm h
    simp [collectArg, collectPathParam_with_meta m req name pm h]
  · intro name h
    simp [collectArg, collectQueryParam_no_meta m req name h, Except.map]
  · intro name pm h
    simp [collectArg, collectQueryParam_with_meta m req name pm h]
  · intro h₁ h₂ hargs heq
    unfold executeRequest
    rw [hnone hargs]
    simp [except_bind_ok, heq]

/-- Witness for C9: a three-descriptor endpoint (body, an unvalidated
query parameter, the raw request) collects exactly the body value, the
raw query value and the request object, in order. -/
theorem collected_args_match_descriptors_witness :
    collectMethodArgs
      { handlerArgs := some [ArgMetadata.body, ArgMetadata.queryParam "tag",
          ArgMetadata.request] }
      { body := JsValue.num 7, query := [("tag", JsValue.str "x")] } =
      Except.ok [ArgValue.value (JsValue.num 7), ArgValue.value (JsValue.str "x"),
        ArgValue.requestObject] :=
  (collected_args_match_descriptors
    { handlerArgs := some [ArgMetadata.body, ArgMetadata.queryParam "tag",
        ArgMetadata.request] }
    { body := JsValue.num 7, query := [("tag", JsValue.str "x")] }).2.1
    [ArgMetadata.body, ArgMetadata.queryParam "tag", ArgMetadata.request]
    [ArgValue.value (JsValue.num 7), ArgValue.value (JsValue.str "x"),
      ArgValue.requestObject]
    rfl
    (List.Forall₂.cons rfl (List.Forall₂.cons rfl (List.Forall₂.cons rfl
      List.Forall₂.nil)))

theorem transmitResult_ok_shape (m : MethodMetadata) (r : MethodResult)
    (hnh : r.isHandled = false) (hnu : r.isUndef = false)
    (hval : validateResponse m r.statusOf r.bodyOf = Except.ok ()) :
    ∃ effs, transmitResult m r = Except.ok effs ∧ effs ≠ [] := by
  cases r with
  | plain v =>
      unfold transmitResult
      simp only [MethodResult.isUndef] at hnu
      simp only [MethodResult.isUndef, hnu, Bool.not_false]
      rw [transmitFields_ok m 200 [] [] none false v hval]
      exact ⟨_, rfl, by simp⟩
  | builder b =>
      unfold transmitResult
      simp only [MethodResult.isHandled] at hnh
      simp only [hnh, Bool.false_eq_true, if_false, MethodResult.isUndef, Bool.not_false]
      rw [transmitFields_ok m b.statusCode b.headers b.cookies b.contentType b.raw b.body hval]
      exact ⟨_, rfl, by simp⟩

theorem transmitResult_val_error (m : MethodMetadata) (r : MethodResult)
    (e : PipelineError) (hnh : r.isHandled = false) (hnu : r.isUndef = false)
    (hval : validateResponse m r.statusOf r.bodyOf = Except.error e) :
    transmitResult m r = Except.error e := by
  cases r with
  | plain v =>
      unfold transmitResult
      simp only [MethodResult.isUndef] at hnu
      simp only [MethodResult.isUndef, hnu, Bool.not_false]
      exact transmitFields_error m 200 [] [] none false v e hval
  | builder b =>
      unfold transmitResult
      simp only [MethodResult.isHandled] at hnh
      simp only [hnh, Bool.false_eq_true, if_false, MethodResult.isUndef, Bool.not_false]
      exact transmitFields_error m b.statusCode b.headers b.cookies b.contentType b.raw b.body e hval

/-- Claim C8: response validation is gated by the validator compiled for
the result's resolved status code.  When the declared responses carry no
entry for that code, or an entry with no schema, the pipeline succeeds
and transmits (a non-empty write sequence) — regardless of schemas
declared for other status codes, since the metadata is otherwise
arbitrary.  When a schema is declared for that code and the body fails
its compiled validator, the pipeline fails with the unclassified server
error carrying the validator's message (HTTP 500), and the error outcome
carries no response write at all: no header, cookie, status code or body
reaches the response. -/
theorem response_validation_gated_per_status (m : MethodMetadata)
    (handler : List ArgValue → MethodResult) (req : Request) (args : List ArgValue)
    (r : MethodResult)
    (hv : validateRequest m req = Except.ok ())
    (hc : collectMethodArgs m req = Except.ok args)
    (hr : handler args = r) (hnh : r.isHandled = false) (hnu : r.isUndef = false) :
    ((recordGetNat m.responses r.statusOf = none ∨
        (∃ rm, recordGetNat m.responses r.statusOf = some rm ∧ rm.schema = none)) →
      ∃ effs, executeRequest m handler req = Except.ok effs ∧ effs ≠ [])
    ∧ (∀ (rm : ResponseMetadata) (val : AjvValidator),
        recordGetNat m.responses r.statusOf = some rm → rm.schema = some val →
        val.ok r.bodyOf = false →
        executeRequest m handler req =
          Except.error (PipelineError.serverError val.errMsg)) := by
  have hbase : executeRequest m handler req = transmitResult m r := by
    rw [executeRequest_eq_of_valid m handler req args hv hc, hr, if_neg (by simp [hnu])]
  constructor
  · intro hgate
    have hval : validateResponse m r.statusOf r.bodyOf = Except.ok () := by
      rcases hgate with hnone | ⟨rm, hsome, hschema⟩
      · exact validateResponse_no_entry m _ _ hnone
      · exact validateResponse_no_schema m _ _ rm hsome hschema
    rw [hbase]
    exact transmitResult_ok_shape m r hnh hnu hval
  · intro rm val hsome hschema hfail
    have hval : validateResponse m r.statusOf r.bodyOf =
        Except.error (PipelineError.serverError val.errMsg) := by
      rw [validateResponse_with_schema m _ _ rm val hsome hschema]
      simp [hfail]
    rw [hbase]
    exact transmitResult_val_error m r _ hnh hnu hval

/-- A concrete compiled response validator for the C8 witness: accepts
structured bodies only. -/
def objValidator : AjvValidator :=
  { ok := fun v => v.isStructured
    errMsg := "response should be object" }

/-- Endpoint metadata for the C8 witness: a schema declared for status 200
only. -/
def mResp : MethodMetadata :=
  { responses := [(200, { schema := some objValidator })] }

/-- Witness for C8 (Scenario E): one declared schema at status 200 that
rejects the handler's body — dispatch fails with the 500 server error and
nothing is written. -/
theorem response_validation_gated_per_status_witness :
    executeRequest mResp (fun _ => MethodResult.plain (JsValue.str "oops")) {} =
      Except.error (PipelineError.serverError "response should be object") :=
  (response_validation_gated_per_status mResp
    (fun _ => MethodResult.plain (JsValue.str "oops")) {} []
    (MethodResult.plain (JsValue.str "oops")) rfl rfl rfl rfl rfl).2
    { schema := some objValidator } objValidator rfl rfl rfl

/-- Counterexample to C1 as stated: `result("text/plain", null)` — the raw
flag is unset, the resolved content type is `"text/plain"` (not
`"application/json"`), and `null` is not a structured (non-primitive)
value, so by the claim the body should go out through the raw/text
primitive; the pipeline nevertheless transmits it through the
JSON-serializing primitive, because the source tests
`typeof body === "object"`, which is true for `null`. -/
theorem json_send_on_null_body_counterexample :
    (resultFactory2 "text/plain" JsValue.null).raw = false ∧
    (resultFactory2 "text/plain" JsValue.null).contentType = some "text/plain" ∧
    JsValue.null.isStructured = false ∧
    executeRequest {}
      (fun _ => MethodResult.builder (resultFactory2 "text/plain" JsValue.null)) {} =
      Except.ok [ResponseEffect.setHeader "Content-Type" "text/plain",
        ResponseEffect.status 200, ResponseEffect.sendJson JsValue.null] :=
  ⟨rfl, rfl, rfl, rfl⟩

/-- Claim C1 (amended): for every result transmitted with a body, the
content type resolves to the builder's explicit content type if set, else
an explicitly set content-type header value, else `"application/json"`
(`specResolvedContentType`); the `Content-Type` header is written with
the resolved type exactly when no content-type header was already
explicitly set; and the body goes through the JSON-serializing primitive
exactly when the raw flag is unset and the resolved content type is
`"application/json"` or the body has JavaScript `typeof` `"object"` (a
structured value or `null`) — a result with the raw flag set is
transmitted uninterpreted regardless of content type.  The second
conjunct instantiates the same contract for a plain (non-builder) result,
whose fields all take their defaults. -/
theorem content_type_resolution_and_send_choice (m : MethodMetadata)
    (handler : List ArgValue → MethodResult) (req : Request) (args : List ArgValue)
    (hv : validateRequest m req = Except.ok ())
    (hc : collectMethodArgs m req = Except.ok args) :
    (∀ b : ResultBuilder, handler args = MethodResult.builder b → b.handled = false →
      validateResponse m b.statusCode b.body = Except.ok () →
      executeRequest m handler req = Except.ok
        (((if (headerContentTypeOf b.headers).isNone then
            recordSet b.headers "Content-Type"
              (specResolvedContentType b.contentType b.headers)
          else b.headers).map fun kv => ResponseEffect.setHeader kv.1 kv.2)
         ++ (b.cookies.map fun kv =>
              ResponseEffect.setCookie kv.1 kv.2.value kv.2.settings)
         ++ [ResponseEffect.status b.statusCode]
         ++ [if b.raw then ResponseEffect.sendRaw b.body
             else if specResolvedContentType b.contentType b.headers == "application/json"
                 || b.body.typeofIsObject then ResponseEffect.sendJson b.body
             else ResponseEffect.sendRaw b.body]))
    ∧ (∀ v : JsValue, handler args = MethodResult.plain v → v.isUndef = false →
        validateResponse m 200 v = Except.ok () →
        executeRequest m handler req = Except.ok
          [ResponseEffect.setHeader "Content-Type" "application/json",
           ResponseEffect.status 200, ResponseEffect.sendJson v]) := by
  constructor
  · intro b hr hh hval
    rw [executeRequest_eq_of_valid m handler req args hv hc, hr,
      if_neg (by simp [MethodResult.isUndef])]
    unfold transmitResult
    simp only [hh, Bool.false_eq_true, if_false, MethodResult.isUndef, Bool.not_false]
    exact transmitFields_ok m b.statusCode b.headers b.cookies b.contentType b.raw b.body hval
  · intro v hr hu hval
    rw [executeRequest_eq_of_valid m handler req args hv hc, hr,
      if_neg (by simp [MethodResult.isUndef, hu])]
    unfold transmitResult
    simp only [MethodResult.isUndef, hu, Bool.not_false]
    rw [transmitFields_ok m 200 [] [] none false v hval]
    simp [headerContentTypeOf, recordGet, recordSet, specResolvedContentType]

/-- Witness for the amended C1: a builder with content type `"foo/bar"`,
one explicit header, and a string body — the header wins nothing here (no
content-type header was set), so `Content-Type: foo/bar` is appended and
the body goes out through the raw/text primitive. -/
theorem content_type_resolution_and_send_choice_witness :
    executeRequest {}
      (fun _ => MethodResult.builder
        ((resultFactory2 "foo/bar" (JsValue.str "hi")).header "X-Tag" "yes")) {} =
      Except.ok [ResponseEffect.setHeader "X-Tag" "yes",
        ResponseEffect.setHeader "Content-Type" "foo/bar",
        ResponseEffect.status 200, ResponseEffect.sendRaw (JsValue.str "hi")] :=
  (content_type_resolution_and_send_choice {}
    (fun _ => MethodResult.builder
      ((resultFactory2 "foo/bar" (JsValue.str "hi")).header "X-Tag" "yes")) {} []
    rfl rfl).1
    ((resultFactory2 "foo/bar" (JsValue.str "hi")).header "X-Tag" "yes")
    rfl rfl rfl

/-- A bodyless builder whose handled flag has been cleared after
construction (`const b = result.handled(); b.handled = false;`) — the
configuration the specification describes as "body undefined and not
marked handled". -/
def unhandledEmptyBuilder : ResultBuilder :=
  { resultHandled with handled := false }

/-- Claim C2 (evaluation of the code at the failing input): for a builder
result with body `undefined` and handled flag false, the source computes
`hasBody` as `result !== undefined` — where `result` is the whole method
result, never `undefined` past the earlier contract check — so the
"bodyless" path is unreachable: instead of the claimed bare status end
with no content-type assignment and no response validation, the pipeline
resolves the content type to `"application/json"`, writes the
`Content-Type` header, sends the undefined body through the
JSON-serializing primitive, and does run response-schema validation (the
second conjunct: a schema declared for status 200 rejects the undefined
body and turns the same input into a 500 server error). -/
theorem bodyless_unhandled_builder_still_sends :
    unhandledEmptyBuilder.body = JsValue.undef ∧
    unhandledEmptyBuilder.handled = false ∧
    executeRequest {} (fun _ => MethodResult.builder unhandledEmptyBuilder) {} =
      Except.ok [ResponseEffect.setHeader "Content-Type" "application/json",
        ResponseEffect.status 200, ResponseEffect.sendJson JsValue.undef] ∧
    executeRequest mResp (fun _ => MethodResult.builder unhandledEmptyBuilder) {} =
      Except.error (PipelineError.serverError "response should be object") :=
  ⟨rfl, rfl, rfl, rfl⟩
